import Mathlib

/-!
Verification development for the mmapbench program (src/main.rs).

The program maps a file read-only, spawns worker threads that touch the
mapped bytes sequentially or at random while incrementing shared counters,
spawns one CPU busy-work thread, and then loops once per second printing a
CSV record computed from the drained counters and two /proc feeds.

All definitions below are shallow embeddings of the Rust source; machine
integers are modelled as Nat with an explicit reduction modulo 2 ^ 64 at the
operations where u64 wrap-around can occur.
-/

/-- Reduction modulo 2 ^ 64, the wrap-around of Rust u64 arithmetic. -/
def wrap64 (x : Nat) : Nat := x % 2 ^ 64

/-- Wrapping u64 subtraction `a - b` (release-mode semantics of the
subtractions in the monitor loop, main.rs lines 204-205). -/
def sub64 (a b : Nat) : Nat := (a + 2 ^ 64 - b) % 2 ^ 64

/-- `scan_block` from main.rs line 150: `128 * 1024 * 1024` bytes (128 MiB,
equal to 2 ^ 27), the span claimed per sequential iteration. -/
def scanBlock : Nat := 128 * 1024 * 1024

/-- `file_size` from main.rs line 105: the length is the hardcoded constant
`2 * 1024 * 1024 * 1024 * 1024` bytes (2 TiB, equal to 2 ^ 41).  The
`fstat` result `sb.st_size` obtained on line 103 is never read anywhere in
the program, so this value is independent of the target file.  It is the
length passed to `mmap` (line 111) and `madvise` (line 123), the modulus in
the sequential workers (line 151) and the exclusive upper bound of the
random distribution (line 162). -/
def fileSize : Nat := 2 * 1024 * 1024 * 1024 * 1024

/-- Value returned by the k-th (0-indexed) `seq_scan_pos.fetch_add(scan_block,
Relaxed)` across all sequential workers (main.rs line 151).  The cursor
starts at 0 and every claim adds exactly `scanBlock` atomically, so the k-th
fetch returns `k * scanBlock` wrapped modulo 2 ^ 64 regardless of how the
workers interleave. -/
def seqScanPosAt (k : Nat) : Nat := wrap64 (k * scanBlock)

/-- Block start offset computed on main.rs line 151: the fetched cursor value
reduced modulo the region length.  The modulus is a parameter `L` here so
that statements quantified over region lengths can be expressed; the source
instantiates `L` with the constant `fileSize`. -/
def blockStart (L k : Nat) : Nat := seqScanPosAt k % L

/-- The block start offset exactly as the source computes it (modulus
`fileSize`). -/
def seqBlockStart (k : Nat) : Nat := blockStart fileSize k

/-- Effective byte offset read at stride `j` of block `k` (main.rs line 155:
`*p.offset(pos + j as isize)`).  Note that no modulo reduction is applied to
`pos + j`; only the block start `pos` was reduced. -/
def strideOffset (L k j : Nat) : Nat := blockStart L k + j

/-- Bounds of `rand::distributions::Uniform::new(0, file_size as usize)`
(main.rs line 162): random-mode offsets are drawn from the half-open range
`[randDist.1, randDist.2)`.  The upper bound is the hardcoded `fileSize`,
not the size of the target file. -/
def randDist : Nat × Nat := (0, fileSize)

/-- Observable setup-phase steps of `main` (main.rs lines 81-195), in program
order.  `main` opens the target, calls `fstat`, maps `fileSize` bytes,
applies the madvise hint, spawns one worker per requested thread, spawns the
load-generator thread, prints the CSV header and enters the monitor loop.
There is no branch on the fstat result: the sequence is the same for every
`stSize`, in particular for a zero-length target. -/
inductive MainAction where
  | openTarget
  | fstatCall
  | mmapCall : Nat → MainAction
  | madviseCall : Nat → MainAction
  | spawnWorker : Nat → MainAction
  | spawnLoadGen
  | printHeader
  | enterMonitorLoop
deriving DecidableEq

/-- Straight-line action sequence of `main` as a function of the target's
size at open time (`stSize`), the thread count and the hint (main.rs lines
81-195).  `stSize` does not occur on the right-hand side because the source
never inspects `sb.st_size` and contains no zero-length check. -/
def mainActions (stSize threads hint : Nat) : List MainAction :=
  [MainAction.openTarget, MainAction.fstatCall, MainAction.mmapCall fileSize,
      MainAction.madviseCall hint]
    ++ (List.range threads).map MainAction.spawnWorker
    ++ [MainAction.spawnLoadGen, MainAction.printHeader, MainAction.enterMonitorLoop]

/-- Per-thread counter vectors from main.rs lines 132-133: `counts` and
`sums` are each built as `(0..threads).map(|_| AtomicU64::new(0))`, one
independent counter per worker thread. -/
def initCounts (threads : Nat) : List Nat := (List.range threads).map (fun _ => 0)

/-- Worker i's `count.fetch_add(1, Relaxed)` where `count = &counts[i]`
(main.rs lines 145, 157, 168): only slot `i` of the vector changes. -/
def touchCount (c : List Nat) (i : Nat) : List Nat :=
  c.set i (wrap64 (c.getD i 0 + 1))

/-- The monitor's drain of the per-thread count vector (main.rs line 201):
`counts.iter().map(|c| c.swap(0, Relaxed)).sum()`.  Each slot's swap returns
its old value and leaves 0 behind; the returned values are summed with u64
addition. -/
def drainSlots (l : List Nat) : Nat × List Nat :=
  (l.foldl (fun acc c => wrap64 (acc + c)) 0, l.map (fun _ => 0))

/-- `cpu_work.swap(0, Relaxed)` (main.rs line 206): returns the old value and
resets the counter to zero. -/
def swapZero (c : Nat) : Nat × Nat := (c, 0)

/-- Atomicity classification of the three counter-mutating primitives that
appear in the source. -/
inductive Prim where
  | fetchAdd
  | swapOp
  | nonAtomicAddAssign
deriving DecidableEq

/-- Identifies which counter a primitive targets: a per-thread `counts[i]`
slot, a per-thread `sums[i]` slot, the shared `seq_scan_pos`, or the shared
`cpu_work`. -/
inductive CounterRef where
  | countSlot : Nat → CounterRef
  | sumSlot : Nat → CounterRef
  | seqScanPos
  | cpuWork
deriving DecidableEq

/-- One counter update as it appears in the source: a target and the
primitive used on it. -/
structure CounterOp where
  target : CounterRef
  prim : Prim
deriving DecidableEq

/-- Whether a primitive is an atomic operation.  `fetch_add` and `swap` are
atomic RMW operations on AtomicU64; `*x.get_mut() += ...` obtains a plain
mutable reference to the inner u64 and performs an ordinary, non-atomic
read-modify-write. -/
def isAtomic : Prim → Bool
  | Prim.nonAtomicAddAssign => false
  | _ => true

/-- Counter update performed once per sequential block claim (main.rs line
151): `seq_scan_pos.fetch_add(scan_block, Relaxed)`. -/
def seqClaimOps : List CounterOp := [⟨CounterRef.seqScanPos, Prim.fetchAdd⟩]

/-- Counter updates performed by sequential worker `i` at every PAGE_SIZE
stride (main.rs lines 155-157): first `*sum.get_mut() += byte` (a non-atomic
compound assignment on `sums[i]`), then `count.fetch_add(1, Relaxed)` on
`counts[i]`. -/
def seqStrideOps (i : Nat) : List CounterOp :=
  [⟨CounterRef.sumSlot i, Prim.nonAtomicAddAssign⟩,
   ⟨CounterRef.countSlot i, Prim.fetchAdd⟩]

/-- Counter updates performed by random worker `i` per iteration (main.rs
lines 166-168): identical shape to the sequential stride body. -/
def randIterOps (i : Nat) : List CounterOp :=
  [⟨CounterRef.sumSlot i, Prim.nonAtomicAddAssign⟩,
   ⟨CounterRef.countSlot i, Prim.fetchAdd⟩]

/-- Counter update performed by the load generator per 10000-iteration batch
(main.rs line 184): `cpu_work.fetch_add(1, Relaxed)`. -/
def loadGenBatchOps : List CounterOp := [⟨CounterRef.cpuWork, Prim.fetchAdd⟩]

/-- Counter updates performed by the monitor per interval (main.rs lines 201
and 206): one `swap(0)` on each `counts[j]` slot, then one `swap(0)` on
`cpu_work`.  The `sums` vector is never drained or read by the monitor. -/
def monitorDrainOps (threads : Nat) : List CounterOp :=
  (List.range threads).map (fun j => ⟨CounterRef.countSlot j, Prim.swapOp⟩)
    ++ [⟨CounterRef.cpuWork, Prim.swapOp⟩]

/-- Marker substring searched for in /proc/interrupts lines (main.rs line
23). -/
def tlbMarker : List Char := "TLB".data

/-- Marker substring searched for in /proc/diskstats lines (main.rs line
43). -/
def nvmeMarker : List Char := "nvme".data

/-- Whether `needle` occurs at the head of `hay` (character-exact). -/
def leadsWith : List Char → List Char → Bool
  | _, [] => true
  | [], _ :: _ => false
  | c :: cs, d :: ds => c = d && leadsWith cs ds

/-- Whether `needle` occurs anywhere in `hay`: the embedding of Rust
`str::contains` for the non-empty literal needles used by the program. -/
def containsSub : List Char → List Char → Bool
  | [], _ => false
  | c :: rest, needle => leadsWith (c :: rest) needle || containsSub rest needle

/-- Helper for `splitWS`: accumulates the current field (reversed) while
walking the line. -/
def splitWSAux : List Char → List Char → List (List Char)
  | [], acc => if acc.isEmpty then [] else [acc.reverse]
  | c :: rest, acc =>
    if c.isWhitespace then
      if acc.isEmpty then splitWSAux rest []
      else acc.reverse :: splitWSAux rest []
    else splitWSAux rest (c :: acc)

/-- Embedding of Rust `str::split_whitespace` (main.rs lines 25 and 44):
splits on whitespace runs and yields no empty fields. -/
def splitWS (cs : List Char) : List (List Char) := splitWSAux cs []

/-- Embedding of Rust `str::parse::<u64>()` on a whitespace-free field: a
non-empty all-digit string parses to its decimal value when it fits in u64,
anything else is an error (overflowing literals fail to parse in Rust). -/
def parseU64 (cs : List Char) : Option Nat :=
  if !cs.isEmpty && cs.all Char.isDigit then
    let v := cs.foldl (fun a c => a * 10 + (c.toNat - 48)) 0
    if v < 2 ^ 64 then some v else none
  else none

/-- Sum of the parseable numeric fields after the first on a matched
/proc/interrupts line (main.rs lines 24-29): fields that fail to parse are
skipped. -/
def tlbLineCount (line : List Char) : Nat :=
  ((splitWS line).drop 1).foldl
    (fun acc f => match parseU64 f with | some c => acc + c | none => acc) 0

/-- Scan of the /proc/interrupts lines (main.rs lines 21-33): the first line
containing the TLB marker is summed and returned; if no line matches the
result is 0. -/
def findTlbLine : List (List Char) → Nat
  | [] => 0
  | l :: rest => if containsSub l tlbMarker then tlbLineCount l else findTlbLine rest

/-- Embedding of `read_tlb_shootdown_count` (main.rs lines 17-34).  The feed
is `none` when /proc/interrupts cannot be opened, in which case the
program's `.expect` panics — modelled as `Except.error` with the panic
message.  (A failure of an individual line read also panics in the source;
the model receives the lines already read.)  Otherwise the line contents are
given and the function returns the summed count of the first matching
line. -/
def read_tlb_shootdown_count : Option (List (List Char)) → Except String Nat
  | none => Except.error "Unable to open /proc/interrupts"
  | some lines => Except.ok (findTlbLine lines)

/-- Per-line loop of `read_io_bytes` (main.rs lines 41-49) carrying the
running sum.  For each line containing the nvme marker the sixth
whitespace-separated field (`strs[5]`) is indexed — a panic (modelled as
`Except.error`) when the line has fewer than six fields — and, when it
parses, `c * 512` is added to the sum; parse failures skip the line. -/
def ioLinesSum : List (List Char) → Nat → Except String Nat
  | [], sum => Except.ok sum
  | l :: rest, sum =>
    if containsSub l nvmeMarker then
      match (splitWS l).get? 5 with
      | none => Except.error "index out of bounds"
      | some f =>
        match parseU64 f with
        | some c => ioLinesSum rest (sum + c * 512)
        | none => ioLinesSum rest sum
    else ioLinesSum rest sum

/-- Embedding of `read_io_bytes` (main.rs lines 36-51): `none` models a
failure to open /proc/diskstats, which panics in the source. -/
def read_io_bytes : Option (List (List Char)) → Except String Nat
  | none => Except.error "Unable to open /proc/diskstats"
  | some lines => ioLinesSum lines 0

/-- Sector count contributed by one diskstats line: the parsed sixth field of
a line containing the nvme marker, 0 for non-matching lines and unparsable
fields. -/
def lineSectors (l : List Char) : Nat :=
  if containsSub l nvmeMarker then
    match (splitWS l).get? 5 with
    | some f => (parseU64 f).getD 0
    | none => 0
  else 0

/-- Total sector count of a diskstats feed. -/
def sectorSum (lines : List (List Char)) : Nat := (lines.map lineSectors).sum

/-- One record of the CSV output stream: the computed fields of main.rs line
208 that derive from the counters (`workGB`, `tlb`, `readGB`, `CPUwork`).
The floating-point divisions of the source are modelled as exact rational
arithmetic. -/
structure IntervalRecord where
  workGB : ℚ
  tlb : Nat
  readGB : ℚ
  cpuWorkDone : Nat
deriving DecidableEq

/-- The divisor `1024.0 * 1024.0 * 1024.0` of main.rs lines 203 and 205. -/
def gib : ℚ := 1024 * 1024 * 1024

/-- One iteration of the monitor loop body (main.rs lines 196-211) given the
sampled counter values: drains the per-thread counts (line 201), computes
`work_gb = (work_count * page_size) / 2^30` (line 203), the TLB delta (line
204), `read_gb = (io_bytes - last_io_bytes) / 2^30` (line 205), and swaps
`cpu_work` to zero (line 206).  Returns the record together with the
post-drain count vector and `cpu_work` value. -/
def monitorStep (pageSize : Nat) (counts : List Nat)
    (cpuWork tlbNow tlbPrev ioNow ioPrev : Nat) :
    IntervalRecord × List Nat × Nat :=
  let drained := drainSlots counts
  let cw := swapZero cpuWork
  ({ workGB := ((wrap64 (drained.1 * pageSize) : Nat) : ℚ) / gib
   , tlb := sub64 tlbNow tlbPrev
   , readGB := ((sub64 ioNow ioPrev : Nat) : ℚ) / gib
   , cpuWorkDone := cw.1 }, drained.2, cw.2)

theorem wrap64_small {x : Nat} (h : x < 2 ^ 64) : wrap64 x = x :=
  Nat.mod_eq_of_lt h

theorem seqBlockStart_eq (k : Nat) :
    seqBlockStart k = k * scanBlock % fileSize := by
  show wrap64 (k * scanBlock) % fileSize = k * scanBlock % fileSize
  exact Nat.mod_mod_of_dvd _ ⟨2 ^ 23, by norm_num [fileSize]⟩

theorem scanBlock_dvd_seqBlockStart (k : Nat) : scanBlock ∣ seqBlockStart k := by
  rw [seqBlockStart_eq]
  exact (Nat.dvd_mod_iff ⟨2 ^ 14, by norm_num [fileSize, scanBlock]⟩).2
    (dvd_mul_left scanBlock k)

theorem seqBlockStart_lt (k : Nat) : seqBlockStart k < fileSize := by
  rw [seqBlockStart_eq]
  exact Nat.mod_lt _ (by norm_num [fileSize])

theorem sub64_eq {a b : Nat} (hle : b ≤ a) (h : a - b < 2 ^ 64) :
    sub64 a b = a - b := by
  have h2 : a + 2 ^ 64 - b = (a - b) + 2 ^ 64 := by omega
  rw [sub64, h2, Nat.add_mod_right]
  exact Nat.mod_eq_of_lt h

theorem foldl_wrapAdd (l : List Nat) : ∀ acc : Nat, acc + l.sum < 2 ^ 64 →
    l.foldl (fun a c => wrap64 (a + c)) acc = acc + l.sum := by
  induction l with
  | nil => intro acc h; simp
  | cons c rest ih =>
    intro acc h
    simp only [List.foldl_cons, List.sum_cons] at *
    have h1 : acc + c < 2 ^ 64 := by omega
    rw [wrap64_small h1, ih (acc + c) (by omega)]
    omega

theorem drainSlots_fst {l : List Nat} (h : l.sum < 2 ^ 64) :
    (drainSlots l).1 = l.sum := by
  have := foldl_wrapAdd l 0 (by omega)
  simpa [drainSlots] using this

theorem drainSlots_snd (l : List Nat) :
    (drainSlots l).2 = List.replicate l.length 0 := by
  induction l with
  | nil => rfl
  | cons c rest ih =>
    simp only [drainSlots, List.map_cons, List.length_cons, List.replicate_succ]
    simpa [drainSlots] using ih

theorem drainSlots_zeros (n : Nat) : (drainSlots (List.replicate n 0)).1 = 0 := by
  have hs : (List.replicate n 0).sum = 0 := by simp
  rw [drainSlots_fst (by rw [hs]; positivity), hs]

theorem getD_set_ne : ∀ (l : List Nat) (i j v : Nat), j ≠ i →
    (l.set i v).getD j 0 = l.getD j 0 := by
  intro l
  induction l with
  | nil => intro i j v h; simp [List.set]
  | cons a t ih =>
    intro i j v h
    cases i with
    | zero =>
      cases j with
      | zero => exact absurd rfl h
      | succ j2 => simp [List.set]
    | succ i2 =>
      cases j with
      | zero => simp [List.set]
      | succ j2 =>
        simp only [List.set, List.getD_cons_succ]
        exact ih i2 j2 v (by omega)

theorem ioLinesSum_ok : ∀ (lines : List (List Char)) (acc b : Nat),
    ioLinesSum lines acc = Except.ok b → b = acc + 512 * sectorSum lines := by
  intro lines
  induction lines with
  | nil =>
    intro acc b h
    simp only [ioLinesSum] at h
    cases h
    simp [sectorSum]
  | cons l rest ih =>
    intro acc b h
    simp only [ioLinesSum] at h
    by_cases hc : containsSub l nvmeMarker = true
    · rw [if_pos hc] at h
      cases hget : (splitWS l).get? 5 with
      | none => rw [hget] at h; cases h
      | some f =>
        rw [hget] at h
        dsimp only at h
        cases hp : parseU64 f with
        | some c =>
          rw [hp] at h
          have hrec := ih (acc + c * 512) b h
          have hl : lineSectors l = c := by
            unfold lineSectors
            rw [if_pos hc, hget]
            simp [hp]
          simp only [sectorSum, List.map_cons, List.sum_cons, hl] at *
          omega
        | none =>
          rw [hp] at h
          have hrec := ih acc b h
          have hl : lineSectors l = 0 := by
            unfold lineSectors
            rw [if_pos hc, hget]
            simp [hp]
          simp only [sectorSum, List.map_cons, List.sum_cons, hl] at *
          omega
    · rw [if_neg hc] at h
      have hrec := ih acc b h
      have hl : lineSectors l = 0 := by
        unfold lineSectors
        rw [if_neg hc]
      simp only [sectorSum, List.map_cons, List.sum_cons, hl] at *
      omega

theorem read_io_bytes_ok {lines : List (List Char)} {b : Nat}
    (h : read_io_bytes (some lines) = Except.ok b) : b = 512 * sectorSum lines := by
  have := ioLinesSum_ok lines 0 b h
  omega

/-- C1 counterexample: the claim quantifies over every positive region length
`L` and asserts that every PAGE_SIZE stride's effective offset is reduced
modulo `L`.  In the source only the block start is reduced (line 151); the
per-stride offset `pos + j` (line 155) is not.  For the positive region
length `L = 1`, block `k = 0` and the PAGE_SIZE-aligned stride `j = 4096`
(which lies within the 2 ^ 27-byte block), the touched offset is 4096, which
does not lie in `[0, 1)`. -/
theorem c1_counterexample :
    (0 : Nat) < 1 ∧ 4096 < scanBlock ∧ 4096 % 4096 = 0 ∧
    strideOffset 1 0 4096 = 4096 ∧ ¬ strideOffset 1 0 4096 < 1 := by decide

/-- C1 amended: only the block start offset is reduced modulo the region
length; the per-stride offset `pos + j` receives no further reduction, but
for the program's actual region length (the constant 2 ^ 41, a multiple of
`SCAN_BLOCK_SIZE`) every touched offset `pos + j` with `j < SCAN_BLOCK_SIZE`
nevertheless lies in `[0, 2 ^ 41)`, for every claim `k`, no matter how often
the 64-bit cursor wraps. -/
theorem c1_amended (k j : Nat) (hj : j < scanBlock) :
    strideOffset fileSize k j < fileSize ∧
    strideOffset fileSize k j % fileSize = strideOffset fileSize k j := by
  obtain ⟨m, hm⟩ := scanBlock_dvd_seqBlockStart k
  have hlt := seqBlockStart_lt k
  have hbound : seqBlockStart k + j < fileSize := by
    have hS : scanBlock = 134217728 := by norm_num [scanBlock]
    have hF : fileSize = 2199023255552 := by norm_num [fileSize]
    rw [hm] at hlt ⊢
    rw [hS] at hlt hj ⊢
    rw [hF] at hlt ⊢
    omega
  have hoff : strideOffset fileSize k j = seqBlockStart k + j := rfl
  rw [hoff]
  exact ⟨hbound, Nat.mod_eq_of_lt hbound⟩

/-- C1 witness: the amended theorem instantiated at block 0, stride 0. -/
theorem c1_amended_witness :
    (0 : Nat) < scanBlock ∧
    (strideOffset fileSize 0 0 < fileSize ∧
      strideOffset fileSize 0 0 % fileSize = strideOffset fileSize 0 0) :=
  ⟨by decide, c1_amended 0 0 (by decide)⟩

/-- C2: evaluation of the code at the failing input.  For a 1-byte target
(`st_size = 1`) the program still maps the hardcoded 2 ^ 41-byte region —
`mainActions` contains `mmapCall fileSize` and not `mmapCall 1` — and the
workers use the same constant as their region length (the random
distribution's upper bound is `fileSize`).  The claim that the mapped length
equals the file's size at open time fails. -/
theorem c2_eval :
    fileSize = 2 ^ 41 ∧ fileSize ≠ 1 ∧
    MainAction.mmapCall fileSize ∈ mainActions 1 4 0 ∧
    MainAction.mmapCall 1 ∉ mainActions 1 4 0 ∧
    randDist.2 = fileSize := by decide

/-- C3 counterexample: a failure to open /proc/interrupts (the `none` feed)
is not treated as a zero delta — the source's `.expect` panics, modelled as
`Except.error` — and a /proc/diskstats line that contains the nvme marker
but has fewer than six fields makes `strs[5]` panic.  Both failures
propagate instead of yielding zero. -/
theorem c3_counterexample :
    read_tlb_shootdown_count none
        = Except.error "Unable to open /proc/interrupts" ∧
    read_io_bytes (some ["8 0 nvme0n1 5 3".data])
        = Except.error "index out of bounds" :=
  ⟨rfl, rfl⟩

/-- C3 amended: absence of a matching line and unparsable numeric fields are
indeed treated as zero, but a failure to open either source panics
(propagates as an error), as does a matching diskstats line with fewer than
six whitespace-separated fields; only those benign malformations yield
zero. -/
theorem c3_amended :
    read_tlb_shootdown_count none
        = Except.error "Unable to open /proc/interrupts" ∧
    read_io_bytes none = Except.error "Unable to open /proc/diskstats" ∧
    read_io_bytes (some ["259 0 nvme1n1 77".data])
        = Except.error "index out of bounds" ∧
    read_tlb_shootdown_count (some []) = Except.ok 0 ∧
    read_tlb_shootdown_count (some ["CPU0 CPU1".data, "IWI: 12 34".data])
        = Except.ok 0 ∧
    read_tlb_shootdown_count (some ["TLB: ab cd".data]) = Except.ok 0 ∧
    read_tlb_shootdown_count (some ["TLB: 3 4 shootdowns".data])
        = Except.ok 7 ∧
    read_io_bytes (some []) = Except.ok 0 ∧
    read_io_bytes (some ["1 2 sda 4 5 6 7".data]) = Except.ok 0 ∧
    read_io_bytes (some ["1 2 nvme0n1 4 5 abc 7".data]) = Except.ok 0 ∧
    read_io_bytes (some ["1 2 nvme0n1 4 5 6 7".data]) = Except.ok 3072 :=
  ⟨rfl, rfl, rfl, rfl, rfl, rfl, rfl, rfl, rfl, rfl, rfl⟩

/-- C4 counterexample: with a zero-length target (`stSize = 0`) and one
requested thread, `main` still spawns worker 0 and still enters the monitor
loop — there is no zero-length check and no early exit. -/
theorem c4_counterexample :
    MainAction.spawnWorker 0 ∈ mainActions 0 1 0 ∧
    MainAction.enterMonitorLoop ∈ mainActions 0 1 0 := by decide

/-- C4 amended: the program performs no zero-length check at all; for every
target size (zero included) it spawns all requested workers and enters the
monitor loop. -/
theorem c4_amended (st th h i : Nat) (hi : i < th) :
    MainAction.spawnWorker i ∈ mainActions st th h ∧
    MainAction.enterMonitorLoop ∈ mainActions st th h := by
  constructor
  · refine List.mem_append.2 (Or.inl (List.mem_append.2 (Or.inr ?_)))
    exact List.mem_map.2 ⟨i, List.mem_range.2 hi, rfl⟩
  · simp [mainActions]

/-- C4 witness: the amended theorem instantiated for a non-trivial
configuration. -/
theorem c4_amended_witness :
    (1 : Nat) < 3 ∧
    (MainAction.spawnWorker 1 ∈ mainActions 5 3 2 ∧
      MainAction.enterMonitorLoop ∈ mainActions 5 3 2) :=
  ⟨by decide, c4_amended 5 3 2 1 (by decide)⟩

/-- C5 counterexample: the checksum update that the claim asserts to be
atomic is, in the source, the non-atomic compound assignment
`*sum.get_mut() += byte` — it appears in both worker loop bodies and is not
an atomic primitive. -/
theorem c5_counterexample :
    (⟨CounterRef.sumSlot 0, Prim.nonAtomicAddAssign⟩ : CounterOp)
        ∈ seqStrideOps 0 ∧
    (⟨CounterRef.sumSlot 0, Prim.nonAtomicAddAssign⟩ : CounterOp)
        ∈ randIterOps 0 ∧
    isAtomic Prim.nonAtomicAddAssign = false := by decide

/-- C5 amended: every counter update in the worker, load-generator and
monitor loops is an atomic `fetch_add`/`swap`, with one exception: the
checksum addition, which is a non-atomic read-modify-write on worker i's own
`sums[i]` slot; that slot is touched by no other trace (in particular the
monitor's drain never targets any `sums` slot). -/
theorem c5_amended (i n : Nat) (op : CounterOp) :
    (op ∈ seqClaimOps ++ seqStrideOps i ++ randIterOps i ++ loadGenBatchOps →
      isAtomic op.prim = true ∨ op.target = CounterRef.sumSlot i) ∧
    (op ∈ monitorDrainOps n →
      isAtomic op.prim = true ∧ ∀ m, op.target ≠ CounterRef.sumSlot m) := by
  constructor
  · intro h
    simp only [seqClaimOps, seqStrideOps, randIterOps, loadGenBatchOps,
      List.cons_append, List.nil_append] at h
    fin_cases h <;> simp [isAtomic]
  · intro h
    simp only [monitorDrainOps, List.mem_append, List.mem_map,
      List.mem_range, List.mem_singleton] at h
    rcases h with ⟨j, hj, rfl⟩ | h
    · exact ⟨rfl, fun m hm => by cases hm⟩
    · subst h
      exact ⟨rfl, fun m hm => by cases hm⟩

/-- C5 witness: the amended theorem applied to the touch-count update of
worker 0, a member of its stride trace. -/
theorem c5_amended_witness :
    isAtomic (CounterOp.mk (CounterRef.countSlot 0) Prim.fetchAdd).prim = true ∨
    (CounterOp.mk (CounterRef.countSlot 0) Prim.fetchAdd).target
        = CounterRef.sumSlot 0 :=
  (c5_amended 0 1 (CounterOp.mk (CounterRef.countSlot 0) Prim.fetchAdd)).1
    (by decide)

/-- C6: evaluation of the code at the failing input.  The random
distribution is `Uniform::new(0, file_size)` with the hardcoded
`file_size = 2 ^ 41`, independent of the target's size; for a 1-byte target
the claim requires every draw to be 0, yet the drawable offset 4096 lies in
the code's range `[0, 2 ^ 41)` and is nonzero. -/
theorem c6_eval :
    randDist = (0, 2 ^ 41) ∧ randDist.2 ≠ 1 ∧
    4096 < randDist.2 ∧ (4096 : Nat) ≠ 0 := by decide

/-- C7 counterexample: the touch counters are not one shared atomic — the
store is built with one slot per thread (`initCounts 2` has two entries),
worker 0's touch and worker 1's touch produce different states, and the
monitor merges the per-thread values at drain time by summing them. -/
theorem c7_counterexample :
    touchCount (initCounts 2) 0 ≠ touchCount (initCounts 2) 1 ∧
    (initCounts 2).length = 2 ∧
    (drainSlots [3, 4]).1 = 3 + 4 := by decide

/-- C7 amended: the Counter Store keeps one `counts` slot (and one `sums`
slot) per worker thread; worker i's touch changes no slot other than i; the
monitor loop merges the per-thread counts at drain time, returning their sum
and resetting every slot to zero.  Only `seq_scan_pos` and `cpu_work` are
single shared counters. -/
theorem c7_amended (c : List Nat) (threads i j : Nat) (hne : j ≠ i)
    (hsum : c.sum < 2 ^ 64) :
    (initCounts threads).length = threads ∧
    (touchCount c i).getD j 0 = c.getD j 0 ∧
    (drainSlots c).1 = c.sum ∧
    (drainSlots c).2 = List.replicate c.length 0 :=
  ⟨by simp [initCounts], getD_set_ne c i j _ hne, drainSlots_fst hsum,
    drainSlots_snd c⟩

/-- C7 witness: the amended theorem at a one-slot store with three configured
threads. -/
theorem c7_amended_witness :
    (1 : Nat) ≠ 0 ∧ ([5] : List Nat).sum < 2 ^ 64 ∧
    ((initCounts 3).length = 3 ∧
      (touchCount [5] 0).getD 1 0 = ([5] : List Nat).getD 1 0 ∧
      (drainSlots [5]).1 = ([5] : List Nat).sum ∧
      (drainSlots [5]).2 = List.replicate ([5] : List Nat).length 0) :=
  ⟨by decide, by decide, c7_amended [5] 3 0 1 (by decide) (by decide)⟩

/-- C8: each emitted record's work-volume field equals the drained
touch-count total multiplied by the page size and divided by 2 ^ 30, and its
I/O-volume field equals the interval's sector-count delta times 512 divided
by 2 ^ 30 (given in-range u64 values and monotone I/O counters, which the
subtraction on line 205 presumes). -/
theorem c8_record_formulas
    (pageSize cpuW tlbN tlbP bn bp : Nat) (counts : List Nat)
    (linesN linesP : List (List Char))
    (hsum : counts.sum < 2 ^ 64)
    (hmul : counts.sum * pageSize < 2 ^ 64)
    (hn : read_io_bytes (some linesN) = Except.ok bn)
    (hpv : read_io_bytes (some linesP) = Except.ok bp)
    (hmono : bp ≤ bn) (hbn : bn < 2 ^ 64) :
    (monitorStep pageSize counts cpuW tlbN tlbP bn bp).1.workGB
        = ((counts.sum * pageSize : Nat) : ℚ) / 2 ^ 30 ∧
    (monitorStep pageSize counts cpuW tlbN tlbP bn bp).1.readGB
        = ((512 * (sectorSum linesN - sectorSum linesP) : Nat) : ℚ) / 2 ^ 30 := by
  have hgib : gib = (2 : ℚ) ^ 30 := by norm_num [gib]
  have h1 : (drainSlots counts).1 = counts.sum := drainSlots_fst hsum
  have hw : wrap64 ((drainSlots counts).1 * pageSize) = counts.sum * pageSize := by
    rw [h1]; exact wrap64_small hmul
  have hbn512 := read_io_bytes_ok hn
  have hbp512 := read_io_bytes_ok hpv
  have hdelta : sub64 bn bp = bn - bp := sub64_eq hmono (by omega)
  have hsplit : bn - bp = 512 * (sectorSum linesN - sectorSum linesP) := by omega
  constructor
  · show ((wrap64 ((drainSlots counts).1 * pageSize) : Nat) : ℚ) / gib = _
    rw [hw, hgib]
  · show ((sub64 bn bp : Nat) : ℚ) / gib = _
    rw [hdelta, hsplit, hgib]

/-- C8 witness: the theorem at a concrete interval — two workers with counts
2 and 3, page size 4096, and diskstats feeds whose sector fields are 6 and 2
(so 3072 and 1024 bytes). -/
theorem c8_record_formulas_witness :
    ([2, 3] : List Nat).sum < 2 ^ 64 ∧
    ((monitorStep 4096 [2, 3] 0 0 0 3072 1024).1.workGB
        = ((([2, 3] : List Nat).sum * 4096 : Nat) : ℚ) / 2 ^ 30 ∧
      (monitorStep 4096 [2, 3] 0 0 0 3072 1024).1.readGB
        = ((512 * (sectorSum ["1 2 nvme0n1 4 5 6 7".data]
            - sectorSum ["1 2 nvme0n1 4 5 2 7".data]) : Nat) : ℚ) / 2 ^ 30) :=
  ⟨by decide, c8_record_formulas 4096 0 0 0 3072 1024 [2, 3]
    ["1 2 nvme0n1 4 5 6 7".data] ["1 2 nvme0n1 4 5 2 7".data]
    (by decide) (by decide) rfl rfl (by decide) (by decide)⟩

/-- C9: a drain atomically reads the counter and resets it to zero
(`swapZero c = (c, 0)`; the vector drain leaves every slot at zero), so any
two consecutive drains performed with no intervening touches after a drain —
of the touch-count vector or of `cpu_work` — both return zero. -/
theorem c9_drain_read_and_reset (l : List Nat) (c : Nat) :
    swapZero c = (c, 0) ∧
    (drainSlots l).2 = List.replicate l.length 0 ∧
    (drainSlots (drainSlots l).2).1 = 0 ∧
    (drainSlots (drainSlots (drainSlots l).2).2).1 = 0 ∧
    (swapZero (swapZero c).2).1 = 0 ∧
    (swapZero (swapZero (swapZero c).2).2).1 = 0 := by
  refine ⟨rfl, drainSlots_snd l, ?_, ?_, rfl, rfl⟩
  · rw [drainSlots_snd l]
    exact drainSlots_zeros _
  · rw [drainSlots_snd l, drainSlots_snd (List.replicate l.length 0)]
    simp only [List.length_replicate]
    exact drainSlots_zeros _

/-- C10: every sequential block start — the fetched 64-bit cursor value
reduced modulo the mapped length 2 ^ 41 — is a multiple of
`SCAN_BLOCK_SIZE = 2 ^ 27`, strictly below the mapped length, and 4096-byte
page aligned, for every claim index `k` (covering cursor wrap-around modulo
2 ^ 64, since 2 ^ 41 divides 2 ^ 64 and 2 ^ 27 divides 2 ^ 41). -/
theorem c10_blockStart_aligned (k : Nat) :
    seqBlockStart k % scanBlock = 0 ∧
    seqBlockStart k < fileSize ∧
    seqBlockStart k % 4096 = 0 := by
  have hd := scanBlock_dvd_seqBlockStart k
  refine ⟨?_, seqBlockStart_lt k, ?_⟩
  · exact Nat.mod_eq_zero_of_dvd hd
  · have h4 : (4096 : Nat) ∣ seqBlockStart k :=
      dvd_trans ⟨32768, by norm_num [scanBlock]⟩ hd
    exact Nat.mod_eq_zero_of_dvd h4
